import Mathlib

/-!
Shallow embedding of `exchangelib/transport.py`: the auth-type negotiation
engine (header tokenizer, challenge classifier, response validator, envelope
builder, auth-instance factory and probe strategies), together with theorems
checking the natural-language specification against it.

Helpers that live outside `transport.py` (`get_redirect_url`, `is_xml`, the
XML element facility from `util.py`, the error-class taxonomy from
`errors.py`, the `Credentials` record from `credentials.py`) are modelled
from the spec; each such definition carries a doc comment saying so.
-/

namespace Transport

/-- A parsed URL, reduced to the parts the negotiation engine reads: whether
the scheme is https, the host, and the path. -/
structure Url where
  has_ssl : Bool
  host : String
  path : String
deriving DecidableEq, Repr

/-- Modelled from the spec: the `Credentials` record (from `credentials.py`,
not under `src/`): `username`, `password`, and a `kind` tag distinguishing a
plain identity from an email-style identity. -/
inductive CredKind
| plain
| email
deriving DecidableEq, Repr

/-- Modelled from the spec: the `Credentials` record (from `credentials.py`,
not under `src/`). -/
structure Credentials where
  username : String
  password : String
  kind : CredKind
deriving DecidableEq, Repr

/-- Modelled from the spec: the caller's account object read by `wrap`, with
its `access_type` tag (the `IMPERSONATION` constant comes from
`credentials.py`, not under `src/`) and `primary_smtp_address`. -/
inductive AccessType
| delegate
| impersonation
deriving DecidableEq, Repr

/-- Modelled from the spec: the account record used by `wrap`. -/
structure Account where
  access_type : AccessType
  primary_smtp_address : String
deriving DecidableEq, Repr

/-- The authentication method enums `NOAUTH`, `NTLM`, `BASIC`, `DIGEST`,
`UNKNOWN` of `transport.py`. -/
inductive AuthType
| noauth
| ntlm
| basic
| digest
| unknown
deriving DecidableEq, Repr

/-- An HTTP response as seen by the negotiation engine: status code, reason
phrase, headers (ordered key/value pairs), the request URL it answers, the
`Location` target already parsed to a `Url` (`none` when the header is absent
or ill-formed; URL string parsing lives in `util.py`, outside `src/`), and
the body text. -/
structure Response where
  status_code : Nat
  reason : String
  headers : List (String × String)
  url : Url
  location : Option Url
  text : String
deriving DecidableEq, Repr

/-- Python `str.lower()` on the ASCII header data this engine reads: map
`Char.toLower` over the characters (written over the character list so that
it reduces in the kernel). -/
def pyLower (s : String) : String := ⟨s.data.map Char.toLower⟩

/-- Python `str.startswith(pre)`: the characters of `pre` are an initial
segment of the characters of `s`. -/
def pyStartsWith (s pre : String) : Bool :=
  go pre.data s.data
where
  /-- Structural prefix test on character lists. -/
  go : List Char → List Char → Bool
  | [], _ => true
  | _ :: _, [] => false
  | a :: pre, b :: s => a = b && go pre s

/-! ## `_tokenize` (HeaderTokenizer) -/

/-- The scanning loop of `_tokenize`: remaining characters, current token,
in-quote flag, tokens emitted so far. A space or comma outside quotes ends
the current token (empty tokens and the literal `,` token are discarded); a
double quote is appended and toggles the flag, emitting the token at once
when the quote closes; any residual token is emitted at end of scan. -/
def tokenizeGo : List Char → String → Bool → List String → List String
| [], token, _, tokens =>
    if token ≠ "" then tokens ++ [token] else tokens
| c :: rest, token, quote, tokens =>
    if (c = ' ' ∨ c = ',') ∧ quote = false then
      tokenizeGo rest "" quote
        (if token ≠ "" ∧ token ≠ "," then tokens ++ [token] else tokens)
    else if c = '"' then
      if quote then tokenizeGo rest "" false (tokens ++ [token.push c])
      else tokenizeGo rest (token.push c) true tokens
    else
      tokenizeGo rest (token.push c) quote tokens

/-- `_tokenize` from `transport.py`: splits challenge-header values on spaces
and commas outside quotes. -/
def tokenize (val : String) : List String :=
  tokenizeGo val.toList "" false []

example : tokenize "ntlm, basic realm=\"a, b\"" = ["ntlm", "basic", "realm=\"a, b\""] := by
  decide

/-! ## `get_redirect_url` (modelled from the spec) -/

/-- Modelled from the spec: the exceptions `TransportError` and
`RelativeRedirect` raised by `get_redirect_url` (`errors.py` / `util.py`, not
under `src/`). `RelativeRedirect` carries the resolved target URL. -/
inductive RedirectExc
| transportErr (msg : String)
| relativeRedirect (url : Url)
deriving DecidableEq, Repr

/-- A redirect target is relative exactly when scheme and host are unchanged
from the original request, per the spec's `RedirectInfo` invariant. -/
def isRelativeTo (target original : Url) : Bool :=
  target.has_ssl = original.has_ssl && target.host = original.host

/-- Modelled from the spec: `get_redirect_url` from `util.py` (not under
`src/`). Per the spec it extracts the `Location` target, fails when the
target is ill-formed (absent) or already equal to the source location, and
otherwise classifies the target as relative iff scheme and host are
unchanged from the original request; `RelativeRedirect` is raised when the
relativity constraint selected by the flags is violated (with
`allow_relative = false` on a relative target, with `require_relative = true`
on a non-relative target), as witnessed by the two call sites in
`transport.py`. On success it returns the target URL, host and ssl flag. -/
def get_redirect_url (response : Response) (allow_relative require_relative : Bool) :
    Except RedirectExc (Url × String × Bool) :=
  match response.location with
  | none => .error (.transportErr "HTTP redirect but no location header")
  | some target =>
    if target = response.url then
      .error (.transportErr "Redirect to same location")
    else if allow_relative = false ∧ isRelativeTo target response.url then
      .error (.relativeRedirect target)
    else if require_relative = true ∧ ¬ isRelativeTo target response.url then
      .error (.relativeRedirect target)
    else
      .ok (target, target.host, target.has_ssl)

/-! ## `_get_auth_method_from_response` (ChallengeClassifier) -/

/-- The observable outcome of a classification call: a returned auth type, or
one of the raised exceptions. `indexErr` models the uncaught Python
`IndexError` that `v.split('=')[1]` raises when a token starting with
`realm` contains no `=` — a generic, unclassified exception. -/
inductive ClassifyOutcome
| authType (a : AuthType)
| redirectError (url : Url)
| transportError (msg : String)
| unauthorizedError (msg : String)
| indexErr
deriving DecidableEq, Repr

/-- The realm-logging loop `for v in vals: if v.startswith('realm'):
realm = v.split('=')[1]...` raises `IndexError` exactly when some token
starts with `realm` but splitting on `=` yields fewer than two parts. -/
def realmLoopRaises (vals : List String) : Bool :=
  vals.any fun v => pyStartsWith v "realm" && ('=' ∈ v.data : Bool) = false

/-- The 401 header scan of `_get_auth_method_from_response`: walk the headers
in order; on each one whose lowered name is `www-authenticate`, tokenize the
lowered value, run the realm-logging loop (which can raise `IndexError`),
then return the most secure advertised scheme, preferring
digest > ntlm > basic; fall through to the next header when none matches;
raise `UnauthorizedError` when no header yields a scheme. -/
def scanAuthHeaders : List (String × String) → ClassifyOutcome
| [] => .unauthorizedError "Got a 401, but no compatible auth type was reported by server"
| (key, val) :: rest =>
    if pyLower key = "www-authenticate" then
      let vals := tokenize (pyLower val)
      if realmLoopRaises vals then .indexErr
      else if "digest" ∈ vals then .authType .digest
      else if "ntlm" ∈ vals then .authType .ntlm
      else if "basic" ∈ vals then .authType .basic
      else scanAuthHeaders rest
    else scanAuthHeaders rest

/-- `_get_auth_method_from_response` from `transport.py`: 200 → `NOAUTH`;
302 → resolve the redirect with `allow_relative=False`, turning a
`RelativeRedirect` into `TransportError('Circular redirect')` and a resolved
target into `RedirectError`; other non-401 statuses → `TransportError`;
401 → scan the `WWW-Authenticate` headers. -/
def get_auth_method_from_response (response : Response) : ClassifyOutcome :=
  if response.status_code = 200 then .authType .noauth
  else if response.status_code = 302 then
    match get_redirect_url response false false with
    | .error (.relativeRedirect _) => .transportError "Circular redirect"
    | .error (.transportErr m) => .transportError m
    | .ok (redirect_url, _, _) => .redirectError redirect_url
  else if response.status_code ≠ 401 then
    .transportError ("Unexpected response: " ++ toString response.status_code
      ++ " " ++ response.reason)
  else
    scanAuthHeaders response.headers

/-! ## `_test_response` (ResponseValidator) -/

/-- The concrete signing-strategy objects produced by the factory:
`requests_ntlm.HttpNtlmAuth`, `requests.auth.HTTPBasicAuth`,
`requests.auth.HTTPDigestAuth`, each holding the username and password they
were constructed with. -/
inductive AuthInstance
| httpNtlmAuth (username password : String)
| httpBasicAuth (username password : String)
| httpDigestAuth (username password : String)
deriving DecidableEq, Repr

/-- `isinstance(auth, requests_ntlm.HttpNtlmAuth)`; false on `None`. -/
def isNtlmInstance : Option AuthInstance → Bool
| some (.httpNtlmAuth _ _) => true
| _ => false

/-- `_is_unauthorized` from `transport.py`: the lowered body contains the
substring `unauthorized` (Python `txt.lower().count('unauthorized') > 0`). -/
def is_unauthorized (txt : String) : Bool :=
  decide ("unauthorized".toList <:+: (pyLower txt).toList)

/-- The observable outcome of `_test_response`: `True` returned (valid), or
one of the raised exceptions (`UnauthorizedError`, `TransportError` carrying
the raw body in its message). -/
inductive TestOutcome
| valid
| unauthorizedError (msg : String)
| transportError (msg : String)
deriving DecidableEq, Repr

/-- `_test_response` from `transport.py`, parameterised by the external XML
well-formedness test: `is_xml` lives in `util.py`, not under `src/`, and
the spec gives no algorithm for it, so it is kept abstract; every theorem
below holds for an arbitrary such predicate. The function reads only the
body text and the auth strategy, never the status code. -/
def test_response (is_xml : String → Bool) (auth : Option AuthInstance)
    (response : Response) : TestOutcome :=
  let resp := response.text
  if is_xml resp then .valid
  else if is_unauthorized resp then .unauthorizedError "Unauthorized (non-401)"
  else if isNtlmInstance auth && resp = "" then
    .unauthorizedError "Unauthorized (NTLM, empty response)"
  else .transportError ("Unknown response from Exchange:\n\n" ++ resp)

/-! ## `get_auth_instance` (AuthInstanceFactory) -/

/-- The values of `AUTH_TYPE_MAP`: the three auth classes (the map also
sends `NOAUTH` to `None`, modelled below by `some none`). -/
inductive AuthModel
| ntlmModel
| basicModel
| digestModel
deriving DecidableEq, Repr

/-- `AUTH_TYPE_MAP` from `transport.py`: a fixed dict keyed by auth type;
`none` models a missing key (`KeyError`), `some none` the `NOAUTH → None`
entry. -/
def AUTH_TYPE_MAP : AuthType → Option (Option AuthModel)
| .ntlm => some (some .ntlmModel)
| .basic => some (some .basicModel)
| .digest => some (some .digestModel)
| .noauth => some none
| .unknown => none

/-- Constructing `model(username=..., password=...)`. -/
def mkAuthInstance : AuthModel → String → String → AuthInstance
| .ntlmModel, u, p => .httpNtlmAuth u p
| .basicModel, u, p => .httpBasicAuth u p
| .digestModel, u, p => .httpDigestAuth u p

/-- The observable failure modes of `get_auth_instance`: the `ValueError` it
raises on an unknown auth type, and the Python `AttributeError` that reading
`credentials.username` raises when `credentials` is `None`. -/
inductive GetAuthErr
| valueError (msg : String)
| attributeError
deriving DecidableEq, Repr

/-- `get_auth_instance` from `transport.py`: look the auth type up in
`AUTH_TYPE_MAP` (missing key → `ValueError`); a `None` model (the `NOAUTH`
entry) returns `None` before the credentials are ever read; otherwise read
the credentials, prefix the username with a backslash when the type is NTLM
and the credential kind is the email kind, and build the instance. -/
def get_auth_instance (credentials : Option Credentials) (auth_type : AuthType) :
    Except GetAuthErr (Option AuthInstance) :=
  match AUTH_TYPE_MAP auth_type with
  | none => .error (.valueError "Authentication type not supported")
  | some none => .ok none
  | some (some model) =>
    match credentials with
    | none => .error .attributeError
    | some c =>
      let username :=
        if auth_type = .ntlm ∧ c.kind = .email then "\\" ++ c.username
        else c.username
      .ok (some (mkAuthInstance model username c.password))

/-! ## `wrap` (EnvelopeBuilder) -/

/-- Modelled from the spec: the XML element facility (`create_element`,
`add_xml_child`, element append from `util.py`/lxml, not under `src/`),
reduced to an element tree: tag, attributes, children; a text node models an
element's text content. The final `xml_to_str` serialization step is
external and out of scope; the claims below are settled on the tree `wrap`
builds just before serializing. -/
inductive XmlNode
| elem (tag : String) (attrs : List (String × String)) (children : List XmlNode)
| text (s : String)

/-- `create_element(tag, **attrs)`: a fresh childless element. -/
def create_element (tag : String) (attrs : List (String × String)) : XmlNode :=
  .elem tag attrs []

/-- `parent.append(child)`: appends at the end of the children. -/
def xappend (parent child : XmlNode) : XmlNode :=
  match parent with
  | .elem t a cs => .elem t a (cs ++ [child])
  | .text s => .text s

/-- `add_xml_child(parent, tag, value)`: append a fresh element with the
given tag whose text is `value`. -/
def add_xml_child (parent : XmlNode) (tag : String) (value : String) : XmlNode :=
  xappend parent (.elem tag [] [.text value])

/-- XML namespaces from `transport.py`. -/
def SOAPNS : String := "http://schemas.xmlsoap.org/soap/envelope/"

/-- Messages namespace from `transport.py`. -/
def MNS : String := "http://schemas.microsoft.com/exchange/services/2006/messages"

/-- Types namespace from `transport.py`. -/
def TNS : String := "http://schemas.microsoft.com/exchange/services/2006/types"

/-- `wrap` from `transport.py`, up to (but not including) the external
`xml_to_str` serialization: build the envelope, append the header with the
version element, the impersonation block when the account is present with
the impersonation access type, and the timezone block when a timezone (with
its `ms_id`) is given, then append the body wrapping `content` verbatim. -/
def wrap (content : XmlNode) (version : String) (account : Option Account)
    (ewstimezone : Option String) : XmlNode :=
  let envelope := create_element "s:Envelope"
    [("xmlns:s", SOAPNS), ("xmlns:t", TNS), ("xmlns:m", MNS)]
  let header := create_element "s:Header" []
  let requestserverversion := create_element "t:RequestServerVersion" [("Version", version)]
  let header := xappend header requestserverversion
  let header :=
    match account with
    | some a =>
      if a.access_type = .impersonation then
        let exchangeimpersonation := create_element "t:ExchangeImpersonation" []
        let connectingsid := create_element "t:ConnectingSID" []
        let connectingsid := add_xml_child connectingsid "t:PrimarySmtpAddress"
          a.primary_smtp_address
        let exchangeimpersonation := xappend exchangeimpersonation connectingsid
        xappend header exchangeimpersonation
      else header
    | none => header
  let header :=
    match ewstimezone with
    | some ms_id =>
      let timezonecontext := create_element "t:TimeZoneContext" []
      let timezonedefinition := create_element "t:TimeZoneDefinition" [("Id", ms_id)]
      let timezonecontext := xappend timezonecontext timezonedefinition
      xappend header timezonecontext
    | none => header
  let envelope := xappend envelope header
  let body := create_element "s:Body" []
  let body := xappend body content
  xappend envelope body

/-! ## Probe strategies -/

/-- `get_autodiscover_authtype` from `transport.py`, with the transport
externalised: the HEAD response and the POST response are inputs. A HEAD 302
is resolved with `require_relative=True`; a `RelativeRedirect` (the target
is cross-domain or cross-scheme) aborts with `RedirectError` carrying the
resolved target; otherwise (relative redirect, or no 302) the probe falls
through to the POST and classifies its response. A `TransportError` from the
redirect resolution (absent location, or target equal to source) is not
caught and propagates. -/
def get_autodiscover_authtype (head_r post_r : Response) : ClassifyOutcome :=
  if head_r.status_code = 302 then
    match get_redirect_url head_r true true with
    | .error (.relativeRedirect url) => .redirectError url
    | .error (.transportErr m) => .transportError m
    | .ok _ => get_auth_method_from_response post_r
  else get_auth_method_from_response post_r

/-- `get_service_authtype` from `transport.py`, with the transport
externalised: `respond v` is the response to the POST of the dummy payload
built for version `v` (`dummy_xml` lives in `services.py`, outside `src/`).
For each version in order the response is classified; a returned auth type
is returned at once, a `TransportError` is swallowed and the next version is
tried (per the spec's error taxonomy from `errors.py`, not under `src/`,
`UnauthorizedError` and `RedirectError` are distinct kinds and surface to
the caller); an exhausted list raises the final `TransportError`. -/
def get_service_authtype (respond : String → Response) : List String → ClassifyOutcome
| [] => .transportError "Failed to get auth type from service"
| v :: rest =>
    match get_auth_method_from_response (respond v) with
    | .transportError _ => get_service_authtype respond rest
    | r => r

/-! ## Spec-side definitions and accessors used by the theorems -/

/-- The 401 selection rule as the spec words it (for the refinement claim
C1): on each header whose lowered name is `www-authenticate`, tokenize the
lowered value and pick the advertised scheme in strict priority order
digest > ntlm > basic regardless of token order; when no such header yields
a scheme, fail with the `UnauthorizedError` carrying
`no compatible auth type`. -/
def specSelectAuth : List (String × String) → ClassifyOutcome
| [] => .unauthorizedError "Got a 401, but no compatible auth type was reported by server"
| (key, val) :: rest =>
    if pyLower key = "www-authenticate" then
      let vals := tokenize (pyLower val)
      if "digest" ∈ vals then .authType .digest
      else if "ntlm" ∈ vals then .authType .ntlm
      else if "basic" ∈ vals then .authType .basic
      else specSelectAuth rest
    else specSelectAuth rest

/-- Children of an element node. -/
def childElems : XmlNode → List XmlNode
| .elem _ _ cs => cs
| .text _ => []

/-- Number of elements with the given tag in a list of nodes (top level
only). -/
def countTag (tag : String) : List XmlNode → Nat
| [] => 0
| .elem t _ _ :: rest => (if t = tag then 1 else 0) + countTag tag rest
| .text _ :: rest => countTag tag rest

/-- The version element `wrap` always puts first in the header. -/
def versionElem (version : String) : XmlNode :=
  .elem "t:RequestServerVersion" [("Version", version)] []

/-- The impersonation block `wrap` builds for an impersonation account. -/
def impersonationElem (a : Account) : XmlNode :=
  .elem "t:ExchangeImpersonation" []
    [.elem "t:ConnectingSID" []
      [.elem "t:PrimarySmtpAddress" [] [.text a.primary_smtp_address]]]

/-- The timezone-context block `wrap` builds for a timezone id. -/
def timezoneElem (ms_id : String) : XmlNode :=
  .elem "t:TimeZoneContext" [] [.elem "t:TimeZoneDefinition" [("Id", ms_id)] []]

/-- Whether the impersonation identity is set: an account is present and its
access type is impersonation. -/
def impersonationSet : Option Account → Bool
| some a => a.access_type = .impersonation
| none => false

/-- The (zero- or one-element) list of impersonation blocks in the header. -/
def impersonationBlock : Option Account → List XmlNode
| some a => if a.access_type = .impersonation then [impersonationElem a] else []
| none => []

/-- The (zero- or one-element) list of timezone blocks in the header. -/
def timezoneBlock : Option String → List XmlNode
| some ms_id => [timezoneElem ms_id]
| none => []

/-! ## Theorems -/

/-- Claim C4: `_tokenize` splits on spaces and commas only outside quotes,
discards empty tokens and the literal comma token, preserves every character
(commas and spaces included) inside a quoted span, emits a token the moment
its closing quote is seen even without a separator, emits any residual token
at end of scan, and on the lower-cased example from the spec yields exactly
`["ntlm", "basic", "realm=\"a, b\""]` in that order. -/
theorem c4_tokenizer :
    (tokenize "ntlm, basic realm=\"a, b\"" = ["ntlm", "basic", "realm=\"a, b\""]) ∧
    (∀ rest token tokens, tokenizeGo ('"' :: rest) token true tokens
        = tokenizeGo rest "" false (tokens ++ [token.push '"'])) ∧
    (∀ c rest token tokens, c ≠ '"' → tokenizeGo (c :: rest) token true tokens
        = tokenizeGo rest (token.push c) true tokens) ∧
    (∀ token q tokens, tokenizeGo [] token q tokens
        = if token ≠ "" then tokens ++ [token] else tokens) ∧
    (∀ c rest token tokens, (c = ' ' ∨ c = ',') →
        tokenizeGo (c :: rest) token false tokens
        = tokenizeGo rest "" false
            (if token ≠ "" ∧ token ≠ "," then tokens ++ [token] else tokens)) := by
  refine ⟨by decide, fun rest token tokens => rfl, ?_, fun token q tokens => rfl, ?_⟩
  · intro c rest token tokens hc
    simp [tokenizeGo, hc]
  · intro c rest token tokens hc
    rcases hc with rfl | rfl <;> rfl

/-- Witness for C4 at concrete inputs: a comma inside quotes is appended to
the current token, and a comma outside quotes emits the current token. -/
theorem c4_tokenizer_witness :
    tokenizeGo [','] "realm=\"a" true [] = tokenizeGo [] "realm=\"a," true [] ∧
    tokenizeGo [','] "ntlm" false [] = tokenizeGo [] "" false ["ntlm"] := by
  constructor
  · exact (c4_tokenizer.2.2.1 ',' [] "realm=\"a" [] (by decide)).trans (by decide)
  · exact (c4_tokenizer.2.2.2.2 ',' [] "ntlm" [] (Or.inr rfl)).trans (by decide)

/-- Claim C3 (code bug): on a 401 whose `WWW-Authenticate` value is the
malformed token `realm` (no `=` character), the classifier does not yield a
classified outcome: the realm-logging statement `v.split('=')[1]` raises an
uncaught generic `IndexError`. -/
theorem c3_indexError_on_malformed_realm :
    get_auth_method_from_response
      { status_code := 401, reason := "Unauthorized",
        headers := [("WWW-Authenticate", "realm")],
        url := ⟨true, "host1", "/EWS/Exchange.asmx"⟩, location := none,
        text := "" } = .indexErr := by
  decide

/-- Counterexample to claim C1 as stated: on a 401 advertising
`Digest realm` the code neither selects Digest nor fails with the
`UnauthorizedError`; the realm-logging loop raises `IndexError` first. -/
theorem c1_counterexample :
    get_auth_method_from_response
      { status_code := 401, reason := "Unauthorized",
        headers := [("WWW-Authenticate", "Digest realm")],
        url := ⟨true, "host1", "/EWS/Exchange.asmx"⟩, location := none,
        text := "" } = .indexErr ∧
    ClassifyOutcome.indexErr ≠ .authType .digest := by
  exact ⟨by decide, by decide⟩

/-- Helper for C1: whenever no `www-authenticate` header carries a malformed
realm token, the 401 header scan agrees with the spec's priority selection. -/
theorem scanAuthHeaders_eq_specSelectAuth (headers : List (String × String))
    (h : ∀ kv ∈ headers, pyLower kv.1 = "www-authenticate" →
         realmLoopRaises (tokenize (pyLower kv.2)) = false) :
    scanAuthHeaders headers = specSelectAuth headers := by
  induction headers with
  | nil => rfl
  | cons kv rest ih =>
    obtain ⟨key, val⟩ := kv
    have hrest : ∀ kv ∈ rest, pyLower kv.1 = "www-authenticate" →
        realmLoopRaises (tokenize (pyLower kv.2)) = false := by
      intro kv hkv
      exact h kv (List.mem_cons_of_mem _ hkv)
    by_cases hk : pyLower key = "www-authenticate"
    · have hreal : realmLoopRaises (tokenize (pyLower val)) = false :=
        h (key, val) (List.mem_cons_self _ _) hk
      simp only [scanAuthHeaders, specSelectAuth, hk, if_true, hreal,
        Bool.false_eq_true, if_false, ih hrest]
    · simp only [scanAuthHeaders, specSelectAuth, hk, if_false, ih hrest]

/-- Claim C1 as amended: for every 401 response whose `www-authenticate`
header values contain no malformed realm token (a token starting with
`realm` and holding no `=`), the classifier walks the headers whose name
case-insensitively equals `www-authenticate`, tokenizes each lower-cased
value, and selects the scheme in strict priority order
Digest > NTLM > Basic regardless of token order, failing with the
`UnauthorizedError` carrying `no compatible auth type` when no recognized
token appears in any such header. -/
theorem c1_amended (headers : List (String × String)) (reason : String)
    (url : Url) (location : Option Url) (text : String)
    (h : ∀ kv ∈ headers, pyLower kv.1 = "www-authenticate" →
         realmLoopRaises (tokenize (pyLower kv.2)) = false) :
    get_auth_method_from_response
      { status_code := 401, reason := reason, headers := headers, url := url,
        location := location, text := text } = specSelectAuth headers := by
  show scanAuthHeaders headers = specSelectAuth headers
  exact scanAuthHeaders_eq_specSelectAuth headers h

/-- Witness for C1: on the spec's example header advertising Digest, NTLM
and Basic at once (Digest not first in token order would work equally), the
classifier returns Digest. -/
theorem c1_amended_witness :
    get_auth_method_from_response
      { status_code := 401, reason := "Unauthorized",
        headers := [("WWW-Authenticate", "NTLM, Basic realm=\"x\", Digest realm=\"x\"")],
        url := ⟨true, "host1", "/EWS/Exchange.asmx"⟩, location := none,
        text := "" } = .authType .digest := by
  exact (c1_amended [("WWW-Authenticate", "NTLM, Basic realm=\"x\", Digest realm=\"x\"")]
    "Unauthorized" ⟨true, "host1", "/EWS/Exchange.asmx"⟩ none "" (by decide)).trans
    (by decide)

/-- Counterexample to claim C2 as stated: a 302 whose well-formed Location
target shares scheme and host with the original request but is a different
path is classified as the circular-redirect `TransportError`, not as a
Redirect with the cross-domain flag false. -/
theorem c2_counterexample :
    get_auth_method_from_response
      { status_code := 302, reason := "Found", headers := [],
        url := ⟨true, "host1", "/a"⟩,
        location := some ⟨true, "host1", "/b"⟩, text := "" }
      = .transportError "Circular redirect" := by
  decide

/-- Claim C2 as amended: when the classifier sees a 302 whose Location
target differs from the source location, it fails with
`TransportError('Circular redirect')` whenever the target shares scheme and
host with the original request — every relative redirect, not only
ill-formed or circular ones — and surfaces `RedirectError` exactly for
cross-domain or cross-scheme targets; the classifier never resolves a
relative redirect internally (that behavior belongs to the autodiscover
probe's HEAD phase). -/
theorem c2_amended (r : Response) (t : Url) (h302 : r.status_code = 302)
    (hloc : r.location = some t) (hne : t ≠ r.url) :
    (isRelativeTo t r.url = true →
      get_auth_method_from_response r = .transportError "Circular redirect") ∧
    (isRelativeTo t r.url = false →
      get_auth_method_from_response r = .redirectError t) := by
  have h200 : r.status_code ≠ 200 := by omega
  constructor
  · intro hrel
    simp [get_auth_method_from_response, get_redirect_url, h200, h302, hloc, hne, hrel]
  · intro hrel
    simp [get_auth_method_from_response, get_redirect_url, h200, h302, hloc, hne, hrel]

/-- Witness for C2: both branches of the amended claim at concrete 302
responses, a same-host target and a cross-host target. -/
theorem c2_amended_witness :
    get_auth_method_from_response
      { status_code := 302, reason := "Found", headers := [],
        url := ⟨true, "host1", "/a"⟩,
        location := some ⟨true, "host1", "/owa"⟩, text := "" }
      = .transportError "Circular redirect" ∧
    get_auth_method_from_response
      { status_code := 302, reason := "Found", headers := [],
        url := ⟨true, "host1", "/a"⟩,
        location := some ⟨true, "host2", "/a"⟩, text := "" }
      = .redirectError ⟨true, "host2", "/a"⟩ := by
  constructor
  · exact (c2_amended _ ⟨true, "host1", "/owa"⟩ rfl rfl (by decide)).1 (by decide)
  · exact (c2_amended _ ⟨true, "host2", "/a"⟩ rfl rfl (by decide)).2 (by decide)

/-- Claim C5: `_test_response` ignores the HTTP status code and applies its
rules in fixed order: well-formed XML yields valid even when the body
contains `unauthorized`; otherwise a body containing `unauthorized`
case-insensitively raises the non-401 `UnauthorizedError`; otherwise an
empty body under an NTLM auth strategy raises the NTLM `UnauthorizedError`
(even when the status is 200, by status-independence); otherwise the
`TransportError` carrying the raw body is raised. Stated for an arbitrary
external XML well-formedness predicate. -/
theorem c5_response_validation (is_xml : String → Bool)
    (auth : Option AuthInstance) (r : Response) :
    (∀ s, test_response is_xml auth { r with status_code := s }
        = test_response is_xml auth r) ∧
    (is_xml r.text = true → test_response is_xml auth r = .valid) ∧
    (is_xml r.text = false → is_unauthorized r.text = true →
      test_response is_xml auth r = .unauthorizedError "Unauthorized (non-401)") ∧
    (is_xml r.text = false → is_unauthorized r.text = false →
      isNtlmInstance auth = true → r.text = "" →
      test_response is_xml auth r
        = .unauthorizedError "Unauthorized (NTLM, empty response)") ∧
    (is_xml r.text = false → is_unauthorized r.text = false →
      (isNtlmInstance auth = false ∨ r.text ≠ "") →
      test_response is_xml auth r
        = .transportError ("Unknown response from Exchange:\n\n" ++ r.text)) := by
  refine ⟨fun s => rfl, ?_, ?_, ?_, ?_⟩
  · intro hx
    simp [test_response, hx]
  · intro hx hu
    simp [test_response, hx, hu]
  · intro hx hu hn he
    rw [he] at hx hu
    simp [test_response, hx, hu, hn, he]
  · intro hx hu hrest
    rcases hrest with hn | he
    · simp [test_response, hx, hu, hn]
    · simp [test_response, hx, hu, he]

/-- Witness for C5: the spec's NTLM silent-failure example, an empty body
with status 200 under an NTLM strategy (and an XML predicate rejecting the
empty string) is classified unauthorized. -/
theorem c5_response_validation_witness :
    test_response (fun s => pyStartsWith s "<?xml")
      (some (.httpNtlmAuth "u" "p"))
      { status_code := 200, reason := "OK", headers := [],
        url := ⟨true, "host1", "/"⟩, location := none, text := "" }
      = .unauthorizedError "Unauthorized (NTLM, empty response)" := by
  exact (c5_response_validation (fun s => pyStartsWith s "<?xml")
    (some (.httpNtlmAuth "u" "p"))
    { status_code := 200, reason := "OK", headers := [],
      url := ⟨true, "host1", "/"⟩, location := none, text := "" }).2.2.2.1
    (by decide) (by decide) (by decide) (by decide)

/-- Claim C6: the service probe walks the supplied versions strictly in
order, one POST per version: an exhausted list fails with the final
`TransportError` (the exhausted-versions failure); a version whose response
classifies to a `TransportError` is folded into trying the remaining
versions; a version whose response classifies to an auth type returns it at
once, the later versions untried; classified `UnauthorizedError` and
`RedirectError` outcomes surface to the caller at once. -/
theorem c6_service_probe (respond : String → Response) (v : String)
    (rest : List String) :
    (get_service_authtype respond []
        = .transportError "Failed to get auth type from service") ∧
    (∀ m, get_auth_method_from_response (respond v) = .transportError m →
      get_service_authtype respond (v :: rest) = get_service_authtype respond rest) ∧
    (∀ a, get_auth_method_from_response (respond v) = .authType a →
      get_service_authtype respond (v :: rest) = .authType a) ∧
    (∀ m, get_auth_method_from_response (respond v) = .unauthorizedError m →
      get_service_authtype respond (v :: rest) = .unauthorizedError m) ∧
    (∀ u, get_auth_method_from_response (respond v) = .redirectError u →
      get_service_authtype respond (v :: rest) = .redirectError u) := by
  refine ⟨rfl, ?_, ?_, ?_, ?_⟩ <;> intro x hx <;> simp [get_service_authtype, hx]

/-- Witness for C6: a server answering 403 to the first version and a Basic
401 challenge to the second resolves to Basic, the transport-level failure
on the first version having been folded into trying the next. -/
theorem c6_service_probe_witness :
    get_service_authtype
      (fun v =>
        if v = "Exchange2007" then
          { status_code := 403, reason := "Forbidden", headers := [],
            url := ⟨true, "host1", "/EWS/Exchange.asmx"⟩, location := none, text := "" }
        else
          { status_code := 401, reason := "Unauthorized",
            headers := [("WWW-Authenticate", "Basic realm=\"x\"")],
            url := ⟨true, "host1", "/EWS/Exchange.asmx"⟩, location := none, text := "" })
      ["Exchange2007", "Exchange2010"] = .authType .basic := by
  have h := (c6_service_probe
    (fun v =>
      if v = "Exchange2007" then
        { status_code := 403, reason := "Forbidden", headers := [],
          url := ⟨true, "host1", "/EWS/Exchange.asmx"⟩, location := none, text := "" }
      else
        { status_code := 401, reason := "Unauthorized",
          headers := [("WWW-Authenticate", "Basic realm=\"x\"")],
          url := ⟨true, "host1", "/EWS/Exchange.asmx"⟩, location := none, text := "" })
    "Exchange2007" ["Exchange2010"]).2.1 "Unexpected response: 403 Forbidden" (by decide)
  exact h.trans (by decide)

/-- Claim C7: the autodiscover probe issues the HEAD first (redirects
disabled); a HEAD 302 whose target is cross-domain or cross-scheme aborts at
once with `RedirectError` carrying the resolved target; a relative HEAD
redirect, or no 302 at all, falls through to the POST, whose classification
is the probe's outcome. -/
theorem c7_autodiscover_probe (head_r post_r : Response) (t : Url) :
    (head_r.status_code = 302 → head_r.location = some t → t ≠ head_r.url →
      isRelativeTo t head_r.url = false →
      get_autodiscover_authtype head_r post_r = .redirectError t) ∧
    (head_r.status_code = 302 → head_r.location = some t → t ≠ head_r.url →
      isRelativeTo t head_r.url = true →
      get_autodiscover_authtype head_r post_r
        = get_auth_method_from_response post_r) ∧
    (head_r.status_code ≠ 302 →
      get_autodiscover_authtype head_r post_r
        = get_auth_method_from_response post_r) := by
  refine ⟨?_, ?_, ?_⟩
  · intro h302 hloc hne hrel
    simp [get_autodiscover_authtype, get_redirect_url, h302, hloc, hne, hrel]
  · intro h302 hloc hne hrel
    simp [get_autodiscover_authtype, get_redirect_url, h302, hloc, hne, hrel]
  · intro h302
    simp [get_autodiscover_authtype, h302]

/-- Witness for C7: a HEAD 302 to another host aborts with `RedirectError`
before the POST response (here a 200) is ever classified; a HEAD 200 falls
through to classifying the POST response. -/
theorem c7_autodiscover_probe_witness :
    get_autodiscover_authtype
      { status_code := 302, reason := "Found", headers := [],
        url := ⟨true, "host1", "/autodiscover/autodiscover.xml"⟩,
        location := some ⟨true, "host2", "/autodiscover/autodiscover.xml"⟩,
        text := "" }
      { status_code := 200, reason := "OK", headers := [],
        url := ⟨true, "host1", "/autodiscover/autodiscover.xml"⟩,
        location := none, text := "" }
      = .redirectError ⟨true, "host2", "/autodiscover/autodiscover.xml"⟩ := by
  exact (c7_autodiscover_probe _ _ ⟨true, "host2", "/autodiscover/autodiscover.xml"⟩).1
    rfl rfl (by decide) (by decide)

/-- Claim C8: the factory maps `NOAUTH` to `None`, an auth type outside the
map to the `ValueError` (configuration failure), NTLM with email-kind
credentials to a strategy whose username carries the backslash domain
separator, and Basic and Digest to strategies with the username and password
unchanged (as is NTLM with a non-email kind). -/
theorem c8_auth_instance_factory (creds : Option Credentials) (c : Credentials) :
    (get_auth_instance creds .noauth = .ok none) ∧
    (get_auth_instance creds .unknown
        = .error (.valueError "Authentication type not supported")) ∧
    (c.kind = .email →
      get_auth_instance (some c) .ntlm
        = .ok (some (.httpNtlmAuth ("\\" ++ c.username) c.password))) ∧
    (c.kind ≠ .email →
      get_auth_instance (some c) .ntlm
        = .ok (some (.httpNtlmAuth c.username c.password))) ∧
    (get_auth_instance (some c) .basic
        = .ok (some (.httpBasicAuth c.username c.password))) ∧
    (get_auth_instance (some c) .digest
        = .ok (some (.httpDigestAuth c.username c.password))) := by
  refine ⟨?_, ?_, ?_, ?_, ?_, ?_⟩
  · cases creds <;> rfl
  · cases creds <;> rfl
  · intro hk
    simp [get_auth_instance, AUTH_TYPE_MAP, mkAuthInstance, hk]
  · intro hk
    simp [get_auth_instance, AUTH_TYPE_MAP, mkAuthInstance, hk]
  · rfl
  · rfl

/-- Witness for C8: email-kind credentials get the backslash prefix under
NTLM; Basic leaves the username untouched. -/
theorem c8_auth_instance_factory_witness :
    get_auth_instance (some ⟨"user@x.com", "pw", .email⟩) .ntlm
      = .ok (some (.httpNtlmAuth "\\user@x.com" "pw")) ∧
    get_auth_instance (some ⟨"user", "pw", .plain⟩) .ntlm
      = .ok (some (.httpNtlmAuth "user" "pw")) := by
  constructor
  · exact ((c8_auth_instance_factory none ⟨"user@x.com", "pw", .email⟩).2.2.1
      rfl).trans rfl
  · exact (c8_auth_instance_factory none ⟨"user", "pw", .plain⟩).2.2.2.1 (by decide)

/-- Claim C9: for every payload, version and context, the header of the
envelope built by `wrap` is exactly the version element first, then the
impersonation block iff the impersonation identity is set, then the
timezone block iff the timezone id is set, in that order; the body wraps the
caller-supplied payload element unchanged, so the body's (only) child is the
original payload structure. -/
theorem c9_envelope_builder (content : XmlNode) (version : String)
    (account : Option Account) (tz : Option String) :
    (childElems (wrap content version account tz)
      = [ XmlNode.elem "s:Header" []
            ([versionElem version] ++ impersonationBlock account ++ timezoneBlock tz),
          XmlNode.elem "s:Body" [] [content] ]) ∧
    (countTag "t:RequestServerVersion"
        ([versionElem version] ++ impersonationBlock account ++ timezoneBlock tz) = 1) ∧
    (([versionElem version] ++ impersonationBlock account ++ timezoneBlock tz).head?
        = some (versionElem version)) ∧
    (countTag "t:ExchangeImpersonation"
        ([versionElem version] ++ impersonationBlock account ++ timezoneBlock tz)
        = if impersonationSet account then 1 else 0) ∧
    (countTag "t:TimeZoneContext"
        ([versionElem version] ++ impersonationBlock account ++ timezoneBlock tz)
        = if tz.isSome then 1 else 0) := by
  rcases account with _ | ⟨atype, addr⟩
  · rcases tz with _ | ms_id
    · exact ⟨rfl, rfl, rfl, rfl, rfl⟩
    · exact ⟨rfl, rfl, rfl, rfl, rfl⟩
  · cases atype <;> rcases tz with _ | ms_id
    · exact ⟨rfl, rfl, rfl, rfl, rfl⟩
    · exact ⟨rfl, rfl, rfl, rfl, rfl⟩
    · exact ⟨rfl, rfl, rfl, rfl, rfl⟩
    · exact ⟨rfl, rfl, rfl, rfl, rfl⟩

/-- Claim C10: `get_auth_instance` on `NOAUTH` returns `None` before the
credentials are ever read: it succeeds even with absent (`None`)
credentials, and its result — like the unknown-type `ValueError` branch — is
the same whatever the credentials argument is. -/
theorem c10_noauth_reads_no_credentials (creds : Option Credentials) :
    (get_auth_instance none .noauth = .ok none) ∧
    (get_auth_instance creds .noauth = .ok none) ∧
    (get_auth_instance creds .unknown = get_auth_instance none .unknown) ∧
    (∀ c, get_auth_instance (some c) .noauth = get_auth_instance none .noauth) := by
  exact ⟨rfl, rfl, rfl, fun c => rfl⟩

end Transport
